import Mathlib

/-!
Verification of the `fy` command-line stock-instructions script
(`src/command_line_version.mjs`) against its natural-language specification.

The script itself reads a file, embeds it in a prompt via
`String.prototype.replace`, sends the prompt to a completion API and prints
the first choice's text.  We embed:

* the ECMAScript string-replacement semantics used by `generatePrompt`
  (including `GetSubstitution`'s `$`-pattern handling, which matters for
  faithfulness);
* the whole-script control flow (`run`) over an abstract environment
  (API key, argv, file system, API outcome);
* the inventory-instruction engine that the spec describes; that engine is
  not implemented in the repository's code (the prompt text merely asks an
  external model to simulate it), so it is modelled from the spec.
-/

namespace Fy

/-! ## ECMAScript string replacement, as used by `generatePrompt` -/

/-- The dollar character, which starts substitution patterns in the
replacement string of `String.prototype.replace`. -/
def dollarChar : Char := '$'

/-- The ampersand character (`$&` inserts the matched substring). -/
def ampChar : Char := '&'

/-- The backquote character (code point 96; the pattern dollar-backquote
inserts the portion preceding the match). -/
def backquoteChar : Char := Char.ofNat 96

/-- The single-quote character (code point 39; the pattern dollar-quote
inserts the portion following the match). -/
def quoteChar : Char := Char.ofNat 39

/-- Split `s` at the first occurrence of `pat`: returns the part before the
match and the part after it, or `none` when `pat` does not occur.  This is
the search step of `String.prototype.replace` with a string search value. -/
def splitFirst (pat : List Char) : List Char → Option (List Char × List Char)
  | [] => if pat = [] then some ([], []) else none
  | c :: rest =>
    if pat.isPrefixOf (c :: rest) then
      some ([], (c :: rest).drop pat.length)
    else
      match splitFirst pat rest with
      | none => none
      | some (a, b) => some (c :: a, b)

/-- ECMAScript `GetSubstitution` for a string search value (no capture
groups): in the replacement text, `$$` yields `$`, `$&` yields the matched
substring, dollar-backquote yields the text before the match,
dollar-quote yields the text after the match, and any other `$` is copied
literally. -/
def getSubstitution (matched before after : List Char) : List Char → List Char
  | [] => []
  | [c] => [c]
  | c :: d :: rest =>
    if c = dollarChar then
      if d = dollarChar then dollarChar :: getSubstitution matched before after rest
      else if d = ampChar then matched ++ getSubstitution matched before after rest
      else if d = backquoteChar then before ++ getSubstitution matched before after rest
      else if d = quoteChar then after ++ getSubstitution matched before after rest
      else c :: getSubstitution matched before after (d :: rest)
    else c :: getSubstitution matched before after (d :: rest)

/-- The ECMAScript `String.prototype.replace` with a string search value: replace the first
occurrence of `pat` in `s` by the replacement text `repl` processed through
`GetSubstitution`; when `pat` does not occur, return `s` unchanged. -/
def jsReplace (s pat repl : String) : String :=
  match splitFirst pat.data s.data with
  | none => s
  | some (a, b) => ⟨a ++ getSubstitution pat.data a b repl.data ++ b⟩

/-- The marker line of the prompt template after which the file content is
inserted. -/
def importMarker : String := "Here is the import file:"

/-- The function `generatePrompt` from `src/command_line_version.mjs`:
`promptTemplate.replace('Here is the import file:',
`Here is the import file:\n${stockInstructions}`)`. -/
def generatePrompt (promptTemplate stockInstructions : String) : String :=
  jsReplace promptTemplate importMarker (importMarker ++ "\n" ++ stockInstructions)

/-- The part of the prompt template preceding the import-file marker. -/
def tmplBefore : String := "\n## Objective\nYour task is to implement a function for maintaining stock levels. The function should read stock update instructions from an input file and output the updated stock levels in a specific format to the console.\n\n## Input File Format\n- Each new line of the file will represent a separate instruction.\n- Lines are terminated by a newline character.\n\n### Possible Instructions\nThe file contains three types of instructions:\n\n1. **set-stock**: Initialize stock levels\n   - Syntax: set-stock <sku-id> <stock-level> [<sku-id> <stock-level>] ...\n   - Example: set-stock AB-6 100 CD-3 200\n\n2. **add-stock**: Add to existing stock\n   - Syntax: add-stock <sku-id> <stock-amount> [<sku-id> <stock-amount>] ...\n   - Example: add-stock AB-6 20 CD-3 10\n\n3. **order**: Deduct from stock for an order\n   - Syntax: order <order-ref> <sku-id> <quantity> [<sku-id> <quantity>] ...\n   - Example: order ON-123 AB-6 2 CD-3 1\n\n## Requirements and Validation\n\n### SKU-ID Format\n- SKU-IDs are alphanumeric strings.\n- Length should be between 2 to 10 characters.\n\n### Quantities and Stock Levels\n- Quantities and stock levels must be non-negative integers.\n- Maximum allowable stock level is 10,000.\n\n### Additional Requirements\n- SKU must be initialized using set-stock before performing add-stock or order operations on it.\n- An order cannot be processed if the required quantity is greater than the available stock level for that SKU.\n- All input amounts must be integers.\n\n### Behaviors and Validations\n1. **Initialization Requirement**: SKU must be initialized using set-stock before performing add-stock or order operations on it.\n2. **Negative Stock**: If an order operation makes stock level negative, the operation should proceed, but the negative stock level must be flagged for review.\n3. **Disallow Negative Inputs**: Commands like set-stock or add-stock should not accept negative amounts.\n\nIf any of these requirements are not met, terminate the process, return the errors using a \"❌\" emoji, and do not proceed with outputting the stock levels.\n\n## Output\n- Your code should print the updated stock levels to the console.\n- Stock levels should be sorted alphabetically by SKU.\n\n### Output Format\nYour output should consist of two main sections:\n1. **Logging**: Log each instruction as it's processed. Use the following format:\n    \n    🔍 Processing instruction [number]: [instruction]\n   \n2. **Result**: Summarize the final stock levels as follows:\n   \n    📊 Final Stock Levels:\n    [SKU] [Stock Level]\n   \n    Example:\n   \n    📊 Final Stock Levels:\n    AB-6 118\n    CD-3 214\n    DE-1 209\n    FG-4 300\n   \n\n## Validation\n- Your code should validate the input file and instructions based on these specifications.\n- Invalid instructions should be skipped and flagged.\n\n## Bonus\n- Implement logging to keep track of each instruction's effect, as per the logging format described above.\n\n---\n\nPlease summarize the operations performed on the stock levels based on these instructions in the specified output format.\n\n---\n\n"

/-- The part of the prompt template following the import-file marker. -/
def tmplAfter : String := "\n\nIf requirements are not met, please don't calculate anything and just return the errors.\n"

/-- The prompt template of `src/command_line_version.mjs` (the template
literal assigned to `promptTemplate`), written as its decomposition at the
unique occurrence of the import-file marker; the concatenation is
byte-for-byte the source's template literal. -/
def promptTemplate : String := tmplBefore ++ importMarker ++ tmplAfter

/-! ## The script's control flow -/

/-- ECMAScript whitespace as recognized by `String.prototype.trim`:
WhiteSpace (TAB, VT, FF, SP, NBSP, ZWNBSP and Unicode space separators)
and LineTerminator (LF, CR, LS, PS) code points. -/
def isJsWhitespace (c : Char) : Bool :=
  [9, 10, 11, 12, 13, 32, 160, 5760, 8192, 8193, 8194, 8195, 8196, 8197,
   8198, 8199, 8200, 8201, 8202, 8232, 8233, 8239, 8287, 12288, 65279].contains c.toNat

/-- ECMAScript `String.prototype.trim`: strip leading and trailing
whitespace. -/
def jsTrim (s : String) : String :=
  ⟨((s.data.dropWhile isJsWhitespace).reverse.dropWhile isJsWhitespace).reverse⟩

/-- Outcome of the one `openai.createCompletion` call: a resolved response
carrying the texts of its choices, a rejection carrying an HTTP response
(`error.response` present, with `status` and `data`), or a rejection with
no response (`error.message` only). -/
inductive ApiResult where
  | ok (choices : List String)
  | httpError (status : Nat) (data : String)
  | netError (message : String)

/-- The environment a run of the script observes: the `OPENAI_API_KEY`
environment variable, `process.argv[2]`, `process.cwd()`, the outcome of
`fs.readFile` on the given path, and the API outcome as a function of the
prompt sent. -/
structure Env where
  apiKey : Option String
  argv2 : Option String
  cwd : String
  fileContent : Except String String
  api : String → ApiResult

/-- Observable result of a run: `console.log` lines, `console.error`
lines, the process exit status, whether `fs.readFile` was invoked, and the
prompt passed to `createCompletion` when the call was made. -/
structure RunResult where
  stdout : List String
  errout : List String
  exitCode : Nat
  fileReadAttempted : Bool
  apiPrompt : Option String
  deriving DecidableEq

/-- Message of the TypeError thrown when the response's `choices` array is
empty and `choices[0].text` is read; it reaches the catch block's
`error.message` branch. -/
def emptyChoicesMessage : String := "Cannot read properties of undefined (reading 'text')"

/-- The whole script: module initialization (`dotenv` + `initializeOpenAI`,
which exits via `handleError` when the key is missing) followed by `main`.
Every `handleError` call prints the message with `console.error` and exits
with status 1. -/
def run (env : Env) : RunResult :=
  match env.apiKey with
  | none => ⟨[], ["OpenAI API key not configured"], 1, false, none⟩
  | some _ =>
    match env.argv2 with
    | none => ⟨[], ["Please specify the path to the file containing stock instructions."], 1, false, none⟩
    | some _ =>
      match env.fileContent with
      | .error msg => ⟨[], ["Error: " ++ msg], 1, true, none⟩
      | .ok stockInstructions =>
        if (jsTrim stockInstructions).length = 0 then
          ⟨[], ["Please enter valid stock instructions in the file."], 1, true, none⟩
        else
          let cwdLine := "Current working directory: " ++ env.cwd
          let customizedPrompt := generatePrompt promptTemplate stockInstructions
          match env.api customizedPrompt with
          | .httpError status data =>
            ⟨[cwdLine], [toString status ++ " " ++ data], 1, true, some customizedPrompt⟩
          | .netError message =>
            ⟨[cwdLine], ["Error: " ++ message], 1, true, some customizedPrompt⟩
          | .ok [] =>
            ⟨[cwdLine], ["Error: " ++ emptyChoicesMessage], 1, true, some customizedPrompt⟩
          | .ok (text :: _) =>
            ⟨[cwdLine, "OpenAI Response: " ++ text], [], 0, true, some customizedPrompt⟩

/-- Environment whose stock-instructions file contains the two characters
`$$`, exercising the replacement-pattern pitfall. -/
def envDollar : Env where
  apiKey := some "key"
  argv2 := some "stock.txt"
  cwd := "/work"
  fileContent := .ok "$$"
  api := fun _ => .ok ["resp"]

/-- Environment for the successful-run witnesses. -/
def envOk : Env where
  apiKey := some "key"
  argv2 := some "stock.txt"
  cwd := "/work"
  fileContent := .ok "set-stock AB12 100"
  api := fun _ => .ok ["FinalStockLevels"]

/-- Environment whose API call fails with no HTTP response. -/
def envApiFail : Env where
  apiKey := some "key"
  argv2 := some "stock.txt"
  cwd := "/work"
  fileContent := .ok "set-stock AB12 100"
  api := fun _ => .netError "socket hang up"

/-- Environment with a whitespace-only instructions file. -/
def envBlankFile : Env where
  apiKey := some "key"
  argv2 := some "stock.txt"
  cwd := "/work"
  fileContent := .ok " \n\t  \n"
  api := fun _ => .ok ["resp"]

/-- Environment with neither an API key nor a file-path argument. -/
def envNoKeyNoArg : Env where
  apiKey := none
  argv2 := none
  cwd := "/work"
  fileContent := .error "unused"
  api := fun _ => .netError "unused"

/-- Environment with an API key but no file-path argument. -/
def envNoArg : Env where
  apiKey := some "key"
  argv2 := none
  cwd := "/work"
  fileContent := .error "unused"
  api := fun _ => .netError "unused"

/-! ## The inventory-instruction engine

Modelled from the spec: the repository's code contains no implementation
of the instruction-processing semantics (the prompt text only asks an
external model to simulate it); the spec reframes it as a deterministic
local engine (spec sections 3, 4 and 7), which is embedded here following
the spec's words. -/

/-- Modelled from the spec: the validation-error kinds of section 7. -/
inductive ErrorKind where
  | malformedInstruction
  | invalidSkuFormat
  | negativeInputAmount
  | stockLevelExceedsMax
  | uninitializedSku
  deriving DecidableEq, Repr

/-- Modelled from the spec: an instruction is a tagged variant over
SetStock, AddStock and Order, each carrying an ordered sequence of
(SKU-ID, integer amount) pairs; Order additionally carries an order
reference string (section 3). -/
inductive Instruction where
  | setStock (pairs : List (String × Int))
  | addStock (pairs : List (String × Int))
  | order (orderRef : String) (pairs : List (String × Int))
  deriving DecidableEq, Repr

/-- The (SKU-ID, amount) pairs an instruction carries. -/
def Instruction.pairs : Instruction → List (String × Int)
  | .setStock ps => ps
  | .addStock ps => ps
  | .order _ ps => ps

/-- The SKU-IDs an instruction references. -/
def Instruction.skus (ins : Instruction) : List String :=
  ins.pairs.map Prod.fst

/-- Modelled from the spec: SKU-ID format, the regular expression
`^[A-Za-z0-9]{2,10}$` (section 3). -/
def validSkuId (s : String) : Bool :=
  2 ≤ s.length && s.length ≤ 10 && s.data.all Char.isAlphanum

/-- Look up a SKU in the stock table (an association list with unique
keys). -/
def lookupStock : List (String × Int) → String → Option Int
  | [], _ => none
  | (k, v) :: rest, s => if k = s then some v else lookupStock rest s

/-- Overwrite (or create) a SKU's entry in the stock table. -/
def setEntry : List (String × Int) → String → Int → List (String × Int)
  | [], s, v => [(s, v)]
  | (k, w) :: rest, s, v =>
    if k = s then (s, v) :: rest else (k, w) :: setEntry rest s v

/-- Modelled from the spec: the instruction validator (section 4.2),
checking in order and short-circuiting on the first failure:
1. SKU-ID format for every referenced SKU;
2. every amount is a non-negative integer;
3. for SetStock/AddStock, the resulting stock level is ≤ 10000 (for
   AddStock the current level of a not-yet-initialized SKU counts as 0,
   since the initialization check only comes fourth);
4. for AddStock/Order, every referenced SKU already exists in the table. -/
def validate (table : List (String × Int)) (ins : Instruction) : Option ErrorKind :=
  if !ins.pairs.all (fun p => validSkuId p.1) then
    some .invalidSkuFormat
  else if !ins.pairs.all (fun p => decide ((0 : Int) ≤ p.2)) then
    some .negativeInputAmount
  else if !(match ins with
      | .setStock ps => ps.all (fun p => decide (p.2 ≤ (10000 : Int)))
      | .addStock ps => ps.all (fun p => decide ((lookupStock table p.1).getD 0 + p.2 ≤ (10000 : Int)))
      | .order _ _ => true) then
    some .stockLevelExceedsMax
  else
    match ins with
    | .setStock _ => none
    | _ =>
      if ins.pairs.all (fun p => (lookupStock table p.1).isSome) then none
      else some .uninitializedSku

/-- Modelled from the spec: the stock applicator (section 4.3).  Applies a
validated instruction to the table; an Order that drives a level negative
still applies and records a NegativeStockWarning for that SKU, returned as
the second component. -/
def applyInstr (table : List (String × Int)) : Instruction → List (String × Int) × List String
  | .setStock ps => (ps.foldl (fun t p => setEntry t p.1 p.2) table, [])
  | .addStock ps =>
    (ps.foldl (fun t p => setEntry t p.1 ((lookupStock t p.1).getD 0 + p.2)) table, [])
  | .order _ ps =>
    ps.foldl
      (fun acc p =>
        let newLevel := (lookupStock acc.1 p.1).getD 0 - p.2
        (setEntry acc.1 p.1 newLevel,
         if newLevel < 0 then acc.2 ++ [p.1] else acc.2))
      (table, [])

/-- State of the engine while folding over the instruction sequence: the
stock table, the hard validation errors collected so far, and the SKUs
flagged with soft negative-stock warnings. -/
structure EngineState where
  table : List (String × Int)
  errors : List ErrorKind
  warnings : List String
  deriving DecidableEq, Repr

/-- The engine's initial state: empty table, no errors, no warnings. -/
def initState : EngineState := ⟨[], [], []⟩

/-- Modelled from the spec: process one instruction — a validation failure
marks the whole instruction as skipped (no partial application) and
records the hard error; otherwise the instruction is applied atomically
(section 4.2, 4.3). -/
def processInstr (st : EngineState) (ins : Instruction) : EngineState :=
  match validate st.table ins with
  | some e => { st with errors := st.errors ++ [e] }
  | none =>
    let r := applyInstr st.table ins
    { st with table := r.1, warnings := st.warnings ++ r.2 }

/-- Process an instruction sequence: a single linear fold (spec
section 4.4). -/
def processList (st : EngineState) (l : List Instruction) : EngineState :=
  l.foldl processInstr st

/-- Insert an entry into a table sorted lexicographically by SKU-ID. -/
def insertSorted (p : String × Int) : List (String × Int) → List (String × Int)
  | [] => [p]
  | q :: rest => if p.1 ≤ q.1 then p :: q :: rest else q :: insertSorted p rest

/-- Sort the table lexicographically by SKU-ID for the report. -/
def sortTable (t : List (String × Int)) : List (String × Int) :=
  t.foldr insertSorted []

/-- Modelled from the spec: the final stock-level report (section 4.4) —
every SKU with its level, sorted by SKU-ID; suppressed entirely (`none`)
when at least one hard validation error occurred. -/
def finalReport (st : EngineState) : Option (List (String × Int)) :=
  if st.errors.isEmpty then some (sortTable st.table) else none

/-! ## Helper lemmas -/

theorem lookup_setEntry_self (t : List (String × Int)) (s : String) (v : Int) :
    lookupStock (setEntry t s v) s = some v := by
  induction t with
  | nil => simp [setEntry, lookupStock]
  | cons p rest ih =>
    obtain ⟨k, w⟩ := p
    by_cases h : k = s
    · simp [setEntry, lookupStock, h]
    · simp [setEntry, lookupStock, h, ih]

theorem getSubstitution_cons_ne (m b a : List Char) (c : Char) (l : List Char)
    (hc : c ≠ dollarChar) :
    getSubstitution m b a (c :: l) = c :: getSubstitution m b a l := by
  cases l <;> simp [getSubstitution, hc]

theorem getSubstitution_no_dollar (m b a : List Char) :
    ∀ l : List Char, (∀ c ∈ l, c ≠ dollarChar) → getSubstitution m b a l = l := by
  intro l
  induction l with
  | nil => intro _; rfl
  | cons c rest ih =>
    intro h
    have hc : c ≠ dollarChar := h c (List.mem_cons_self c rest)
    rw [getSubstitution_cons_ne m b a c rest hc,
        ih (fun x hx => h x (List.mem_cons_of_mem c hx))]

theorem getSubstitution_append_no_dollar (m b a : List Char) :
    ∀ l1 l2 : List Char, (∀ c ∈ l1, c ≠ dollarChar) →
      getSubstitution m b a (l1 ++ l2) = l1 ++ getSubstitution m b a l2 := by
  intro l1 l2
  induction l1 with
  | nil => intro _; rfl
  | cons c rest ih =>
    intro h
    have hc : c ≠ dollarChar := h c (List.mem_cons_self c rest)
    rw [List.cons_append, getSubstitution_cons_ne m b a c (rest ++ l2) hc,
        ih (fun x hx => h x (List.mem_cons_of_mem c hx)), List.cons_append]

theorem splitFirst_self_append (pat b : List Char) (hne : pat ≠ []) :
    splitFirst pat (pat ++ b) = some ([], b) := by
  cases pat with
  | nil => exact absurd rfl hne
  | cons h0 p =>
    have hpre : (h0 :: p).isPrefixOf ((h0 :: p) ++ b) = true :=
      List.isPrefixOf_iff_prefix.mpr (List.prefix_append (h0 :: p) b)
    rw [show (h0 :: p) ++ b = h0 :: (p ++ b) from rfl, splitFirst]
    simp only [← List.cons_append, hpre, if_true, List.drop_left]

theorem splitFirst_at_marker (h0 : Char) (p b : List Char) :
    ∀ a : List Char, (∀ c ∈ a, c ≠ h0) →
      splitFirst (h0 :: p) (a ++ (h0 :: p) ++ b) = some (a, b) := by
  intro a
  induction a with
  | nil =>
    intro _
    simpa using splitFirst_self_append (h0 :: p) b (by simp)
  | cons c rest ih =>
    intro h
    have hc : c ≠ h0 := h c (List.mem_cons_self c rest)
    have hpre : (h0 :: p).isPrefixOf (c :: (rest ++ (h0 :: p) ++ b)) = false := by
      simp [List.isPrefixOf]
      intro heq
      exact absurd heq.symm hc
    rw [show (c :: rest) ++ (h0 :: p) ++ b = c :: (rest ++ (h0 :: p) ++ b) by simp,
        splitFirst, hpre]
    simp only [Bool.false_eq_true, if_false]
    rw [ih (fun x hx => h x (List.mem_cons_of_mem c hx))]

set_option maxRecDepth 200000 in
theorem no_H_in_tmplBefore : ∀ c ∈ tmplBefore.data, c ≠ 'H' := by
  have hall : tmplBefore.data.all (fun c => !(c == 'H')) = true := by decide
  intro c hc
  have := List.all_eq_true.mp hall c hc
  simpa using this

theorem splitFirst_promptTemplate :
    splitFirst importMarker.data promptTemplate.data =
      some (tmplBefore.data, tmplAfter.data) := by
  have hdata : promptTemplate.data =
      tmplBefore.data ++ importMarker.data ++ tmplAfter.data := by
    simp [promptTemplate, String.data_append]
  have hm : importMarker.data = 'H' :: "ere is the import file:".data := rfl
  rw [hdata, hm]
  exact splitFirst_at_marker 'H' "ere is the import file:".data tmplAfter.data
    tmplBefore.data no_H_in_tmplBefore

theorem generatePrompt_promptTemplate (stock : String) :
    generatePrompt promptTemplate stock =
      ⟨tmplBefore.data ++
        getSubstitution importMarker.data tmplBefore.data tmplAfter.data
          (importMarker.data ++ '\n' :: stock.data) ++ tmplAfter.data⟩ := by
  have hrepl : (importMarker ++ "\n" ++ stock).data =
      importMarker.data ++ '\n' :: stock.data := by
    simp [String.data_append]
  unfold generatePrompt jsReplace
  rw [splitFirst_promptTemplate, hrepl]

theorem no_dollar_in_marker_line : ∀ c ∈ importMarker.data ++ ['\n'], c ≠ dollarChar := by
  decide

theorem generatePrompt_no_dollar (stock : String)
    (h : ∀ c ∈ stock.data, c ≠ dollarChar) :
    generatePrompt promptTemplate stock =
      tmplBefore ++ importMarker ++ "\n" ++ stock ++ tmplAfter := by
  rw [generatePrompt_promptTemplate]
  apply String.ext
  have hgs : getSubstitution importMarker.data tmplBefore.data tmplAfter.data
      (importMarker.data ++ '\n' :: stock.data) =
      importMarker.data ++ '\n' :: stock.data := by
    apply getSubstitution_no_dollar
    intro c hc
    rcases List.mem_append.mp hc with hmm | hmm
    · exact no_dollar_in_marker_line c (List.mem_append.mpr (.inl hmm))
    · rcases List.mem_cons.mp hmm with hnl | hs
      · rw [hnl]; decide
      · exact h c hs
  rw [hgs]
  simp [String.data_append]

theorem processInstr_errors (st : EngineState) (ins : Instruction) :
    (processInstr st ins).errors = st.errors ∨
      ∃ e, (processInstr st ins).errors = st.errors ++ [e] := by
  unfold processInstr
  cases hv : validate st.table ins with
  | none => left; rfl
  | some e => right; exact ⟨e, rfl⟩

theorem processList_errors_ne_nil (l : List Instruction) :
    ∀ st : EngineState, st.errors ≠ [] → (processList st l).errors ≠ [] := by
  induction l with
  | nil => intro st h; exact h
  | cons i rest ih =>
    intro st h
    show (processList (processInstr st i) rest).errors ≠ []
    apply ih
    rcases processInstr_errors st i with h1 | ⟨e, h2⟩
    · rw [h1]; exact h
    · rw [h2]; simp

theorem finalReport_processList_none (st : EngineState) (rest : List Instruction)
    (h : st.errors ≠ []) : finalReport (processList st rest) = none := by
  have hne := processList_errors_ne_nil rest st h
  unfold finalReport
  rw [if_neg]
  simpa [List.isEmpty_iff] using hne

/-! ## The claims -/

/-- C7: for every valid SetStock instruction with level L, 0 ≤ L ≤ 10000,
applying the instruction and then reading that SKU from the stock table
returns exactly L. -/
theorem claim_C7_setStock_then_read (st : EngineState) (sku : String) (L : Int)
    (h1 : validSkuId sku = true) (h2 : 0 ≤ L) (h3 : L ≤ 10000) :
    lookupStock (processInstr st (.setStock [(sku, L)])).table sku = some L := by
  have hv : validate st.table (.setStock [(sku, L)]) = none := by
    simp [validate, Instruction.pairs, h1, h2, h3]
  simp [processInstr, hv, applyInstr, lookup_setEntry_self]

/-- Witness for C7 at SKU "AB12", level 100, empty initial state. -/
theorem claim_C7_setStock_then_read_witness :
    validSkuId "AB12" = true ∧ (0 : Int) ≤ 100 ∧ (100 : Int) ≤ 10000 ∧
    lookupStock (processInstr initState (.setStock [("AB12", 100)])).table "AB12" =
      some 100 :=
  ⟨by decide, by decide, by decide,
   claim_C7_setStock_then_read initState "AB12" 100 (by decide) (by decide) (by decide)⟩

/-- C4: an Order with a non-negative quantity on an initialized SKU is
applied even when the subtraction makes the level negative; the errors
list is unchanged (never a hard error), a negative resulting level is
recorded as a soft warning, and the final report is not suppressed. -/
theorem claim_C4_order_negative_soft (st : EngineState) (ref sku : String) (q cur : Int)
    (h1 : validSkuId sku = true) (h2 : 0 ≤ q)
    (h3 : lookupStock st.table sku = some cur) :
    (processInstr st (.order ref [(sku, q)])).errors = st.errors ∧
    lookupStock (processInstr st (.order ref [(sku, q)])).table sku = some (cur - q) ∧
    (cur - q < 0 → sku ∈ (processInstr st (.order ref [(sku, q)])).warnings) ∧
    (st.errors = [] →
      (finalReport (processInstr st (.order ref [(sku, q)]))).isSome = true) := by
  have hv : validate st.table (.order ref [(sku, q)]) = none := by
    simp [validate, Instruction.pairs, h1, h2, h3]
  have happ : applyInstr st.table (.order ref [(sku, q)]) =
      (setEntry st.table sku (cur - q), if cur - q < 0 then [sku] else []) := by
    simp [applyInstr, h3]
  refine ⟨?_, ?_, ?_, ?_⟩
  · simp [processInstr, hv]
  · simp [processInstr, hv, happ, lookup_setEntry_self]
  · intro hneg
    simp [processInstr, hv, happ, hneg]
  · intro herr
    simp [processInstr, hv, finalReport, herr]

/-- Witness for C4: ordering 25 off a SKU holding 10 applies (level −15),
adds no error, flags the SKU, and leaves the report available. -/
theorem claim_C4_order_negative_soft_witness :
    (processInstr ⟨[("AB12", 10)], [], []⟩ (.order "ON123" [("AB12", 25)])).errors = [] ∧
    lookupStock (processInstr ⟨[("AB12", 10)], [], []⟩
      (.order "ON123" [("AB12", 25)])).table "AB12" = some (10 - 25) ∧
    ((10 : Int) - 25 < 0 →
      "AB12" ∈ (processInstr ⟨[("AB12", 10)], [], []⟩ (.order "ON123" [("AB12", 25)])).warnings) ∧
    (([] : List ErrorKind) = [] →
      (finalReport (processInstr ⟨[("AB12", 10)], [], []⟩
        (.order "ON123" [("AB12", 25)]))).isSome = true) :=
  claim_C4_order_negative_soft ⟨[("AB12", 10)], [], []⟩ "ON123" "AB12" 25 10
    (by decide) (by decide) (by decide)

/-- C5: an instruction accepted by the processor references only SKU-IDs
matching `^[A-Za-z0-9]{2,10}$`; an instruction referencing a SKU-ID outside
that format is rejected with InvalidSkuFormat, a hard error that
suppresses the report. -/
theorem claim_C5_sku_format (st : EngineState) (ins : Instruction) :
    ((processInstr st ins).errors = st.errors →
      ∀ sku ∈ ins.skus, validSkuId sku = true) ∧
    ((∃ sku ∈ ins.skus, validSkuId sku = false) →
      validate st.table ins = some .invalidSkuFormat ∧
      (processInstr st ins).errors = st.errors ++ [.invalidSkuFormat] ∧
      finalReport (processInstr st ins) = none) := by
  constructor
  · intro h sku hmem
    cases hv : validate st.table ins with
    | some e =>
      exfalso
      have he : (processInstr st ins).errors = st.errors ++ [e] := by
        simp [processInstr, hv]
      rw [he] at h
      have := congrArg List.length h
      simp at this
    | none =>
      cases hall : ins.pairs.all (fun p => validSkuId p.1) with
      | false =>
        exfalso
        have : validate st.table ins = some .invalidSkuFormat := by
          simp [validate, hall]
        rw [hv] at this
        cases this
      | true =>
        rcases (by simpa [Instruction.skus] using hmem :
          ∃ x, (sku, x) ∈ ins.pairs) with ⟨x, hp⟩
        simpa using List.all_eq_true.mp hall (sku, x) hp
  · rintro ⟨sku, hmem, hbad⟩
    have hall : ins.pairs.all (fun p => validSkuId p.1) = false := by
      cases hall : ins.pairs.all (fun p => validSkuId p.1) with
      | false => rfl
      | true =>
        exfalso
        rcases (by simpa [Instruction.skus] using hmem :
          ∃ x, (sku, x) ∈ ins.pairs) with ⟨x, hp⟩
        have hgood : validSkuId sku = true := by
          simpa using List.all_eq_true.mp hall (sku, x) hp
        rw [hbad] at hgood
        cases hgood
    have hv : validate st.table ins = some .invalidSkuFormat := by
      simp [validate, hall]
    refine ⟨hv, by simp [processInstr, hv], ?_⟩
    simp [finalReport, processInstr, hv]

/-- Witness for C5: the SKU-ID "A" (length 1) makes an AddStock rejected
with InvalidSkuFormat and suppresses the report. -/
theorem claim_C5_sku_format_witness :
    (∃ sku ∈ (Instruction.addStock [("A", 5)]).skus, validSkuId sku = false) ∧
    validate initState.table (.addStock [("A", 5)]) = some .invalidSkuFormat ∧
    (processInstr initState (.addStock [("A", 5)])).errors =
      initState.errors ++ [.invalidSkuFormat] ∧
    finalReport (processInstr initState (.addStock [("A", 5)])) = none :=
  ⟨⟨"A", by decide, by decide⟩,
   (claim_C5_sku_format initState (.addStock [("A", 5)])).2 ⟨"A", by decide, by decide⟩⟩

/-- C6 counterexample: an AddStock on the never-initialized SKU "A" is
rejected with InvalidSkuFormat, not UninitializedSku — the format check
short-circuits first, so the claim's "rejected with an UninitializedSku
hard error" does not hold for every uninitialized reference. -/
theorem claim_C6_counterexample :
    lookupStock initState.table "A" = none ∧
    (processInstr initState (.addStock [("A", 5)])).errors = [ErrorKind.invalidSkuFormat] ∧
    ErrorKind.uninitializedSku ∉ (processInstr initState (.addStock [("A", 5)])).errors := by
  decide

/-- C6 (amended): every AddStock or Order instruction — with any number of
(SKU, amount) pairs — that references at least one SKU absent from the
table and passes the earlier short-circuited validation steps (all SKU-IDs
well-formed, all amounts non-negative, and for AddStock every resulting
level within 10000; Order has no resulting-level check) is rejected with
UninitializedSku, and the final stock report of the whole run is
suppressed. -/
theorem claim_C6_uninitialized_sku (st : EngineState) (ref : String)
    (ps : List (String × Int)) (rest : List Instruction)
    (h1 : ∀ p ∈ ps, validSkuId p.1 = true)
    (h2 : ∀ p ∈ ps, (0 : Int) ≤ p.2)
    (h4 : ∃ p ∈ ps, lookupStock st.table p.1 = none) :
    ((∀ p ∈ ps, (lookupStock st.table p.1).getD 0 + p.2 ≤ (10000 : Int)) →
      validate st.table (.addStock ps) = some .uninitializedSku ∧
      finalReport (processList (processInstr st (.addStock ps)) rest) = none) ∧
    (validate st.table (.order ref ps) = some .uninitializedSku ∧
      finalReport (processList (processInstr st (.order ref ps)) rest) = none) := by
  have ha1 : ps.all (fun p => validSkuId p.1) = true :=
    List.all_eq_true.mpr h1
  have ha2 : ps.all (fun p => decide ((0 : Int) ≤ p.2)) = true :=
    List.all_eq_true.mpr (fun p hp => decide_eq_true (h2 p hp))
  have ha4 : ps.all (fun p => (lookupStock st.table p.1).isSome) = false := by
    rcases h4 with ⟨p0, hp0, hnone⟩
    cases hall : ps.all (fun p => (lookupStock st.table p.1).isSome) with
    | false => rfl
    | true =>
      exfalso
      have := List.all_eq_true.mp hall p0 hp0
      rw [hnone] at this
      cases this
  constructor
  · intro h3
    have ha3 : ps.all
        (fun p => decide ((lookupStock st.table p.1).getD 0 + p.2 ≤ (10000 : Int))) = true :=
      List.all_eq_true.mpr (fun p hp => decide_eq_true (h3 p hp))
    have hva : validate st.table (.addStock ps) = some .uninitializedSku := by
      simp [validate, Instruction.pairs, ha1, ha2, ha3, ha4]
    refine ⟨hva, ?_⟩
    apply finalReport_processList_none
    simp [processInstr, hva]
  · have hvo : validate st.table (.order ref ps) = some .uninitializedSku := by
      simp [validate, Instruction.pairs, ha1, ha2, ha4]
    refine ⟨hvo, ?_⟩
    apply finalReport_processList_none
    simp [processInstr, hvo]

/-- Witness for C6 (amended) at a two-pair instruction mixing the
initialized SKU "AB12" with the never-initialized "XY9". -/
theorem claim_C6_uninitialized_sku_witness :
    (validate (⟨[("AB12", 10)], [], []⟩ : EngineState).table
        (.addStock [("AB12", 5), ("XY9", 5)]) = some .uninitializedSku ∧
      finalReport (processList (processInstr ⟨[("AB12", 10)], [], []⟩
        (.addStock [("AB12", 5), ("XY9", 5)])) []) = none) ∧
    (validate (⟨[("AB12", 10)], [], []⟩ : EngineState).table
        (.order "ON1" [("AB12", 5), ("XY9", 5)]) = some .uninitializedSku ∧
      finalReport (processList (processInstr ⟨[("AB12", 10)], [], []⟩
        (.order "ON1" [("AB12", 5), ("XY9", 5)])) []) = none) :=
  ⟨(claim_C6_uninitialized_sku ⟨[("AB12", 10)], [], []⟩ "ON1"
      [("AB12", 5), ("XY9", 5)] [] (by decide) (by decide)
      ⟨("XY9", 5), by decide, by decide⟩).1 (by decide),
   (claim_C6_uninitialized_sku ⟨[("AB12", 10)], [], []⟩ "ON1"
      [("AB12", 5), ("XY9", 5)] [] (by decide) (by decide)
      ⟨("XY9", 5), by decide, by decide⟩).2⟩

/-- The prompt the script passes to `createCompletion`, whenever the run
reaches the API call, is `generatePrompt promptTemplate content`. -/
theorem run_apiPrompt (env : Env) (k f content : String)
    (h1 : env.apiKey = some k) (h2 : env.argv2 = some f)
    (h3 : env.fileContent = .ok content) (h4 : (jsTrim content).length ≠ 0) :
    (run env).apiPrompt = some (generatePrompt promptTemplate content) := by
  cases hapi : env.api (generatePrompt promptTemplate content) with
  | ok choices =>
    cases choices with
    | nil => simp [run, h1, h2, h3, h4, hapi]
    | cons t ts => simp [run, h1, h2, h3, h4, hapi]
  | httpError s d => simp [run, h1, h2, h3, h4, hapi]
  | netError m => simp [run, h1, h2, h3, h4, hapi]

/-- C1 counterexample: with file content `$$` the prompt sent to the API
is NOT the template with the content embedded character for character —
JavaScript replacement-pattern substitution collapses `$$` to `$`. -/
theorem claim_C1_counterexample :
    promptTemplate = tmplBefore ++ importMarker ++ tmplAfter ∧
    envDollar.fileContent = .ok "$$" ∧
    (run envDollar).apiPrompt = some (generatePrompt promptTemplate "$$") ∧
    generatePrompt promptTemplate "$$" ≠
      tmplBefore ++ importMarker ++ "\n" ++ "$$" ++ tmplAfter := by
  refine ⟨rfl, rfl,
    run_apiPrompt envDollar "key" "stock.txt" "$$" rfl rfl rfl (by decide), ?_⟩
  intro heq
  have hd := congrArg String.data heq
  rw [generatePrompt_promptTemplate] at hd
  have h2d : ("$$" : String).data = ['$', '$'] := rfl
  have hgs : getSubstitution importMarker.data tmplBefore.data tmplAfter.data
      (importMarker.data ++ '\n' :: ("$$" : String).data) =
      (importMarker.data ++ ['\n']) ++ ['$'] := by
    rw [h2d, show importMarker.data ++ '\n' :: ['$', '$'] =
          (importMarker.data ++ ['\n']) ++ ['$', '$'] by simp,
        getSubstitution_append_no_dollar _ _ _ _ _ no_dollar_in_marker_line]
    rfl
  rw [hgs] at hd
  simp only [String.data_append, h2d,
    show ("\n" : String).data = ['\n'] from rfl] at hd
  have hl := congrArg List.length hd
  simp only [List.length_append, List.length_cons, List.length_nil] at hl
  omega

/-- C1 (amended): for every stock-instructions file content containing no
`$` character, the prompt sent to the completion API is the fixed template
with the content embedded character for character right after the line
"Here is the import file:", the rest of the template unchanged; contents
with `$` go through JavaScript replacement-pattern substitution first. -/
theorem claim_C1_prompt_embedding (env : Env) (k f content : String)
    (h1 : env.apiKey = some k) (h2 : env.argv2 = some f)
    (h3 : env.fileContent = .ok content) (h4 : (jsTrim content).length ≠ 0)
    (h5 : ∀ c ∈ content.data, c ≠ dollarChar) :
    (run env).apiPrompt =
      some (tmplBefore ++ importMarker ++ "\n" ++ content ++ tmplAfter) := by
  rw [run_apiPrompt env k f content h1 h2 h3 h4,
      generatePrompt_no_dollar content h5]

/-- Witness for C1 (amended): a dollar-free file content is embedded
verbatim. -/
theorem claim_C1_prompt_embedding_witness :
    (run envOk).apiPrompt =
      some (tmplBefore ++ importMarker ++ "\n" ++ "set-stock AB12 100" ++ tmplAfter) :=
  claim_C1_prompt_embedding envOk "key" "stock.txt" "set-stock AB12 100"
    rfl rfl rfl (by decide) (by decide)

/-- C2: on a successful API response with a first choice, the script prints
the working-directory line and then the first choice's text verbatim after
the "OpenAI Response:" label, exits 0, and does this uniformly for every
response text (no inspection, parsing or validation of the text). -/
theorem claim_C2_response_printed (env : Env) (k f content text : String)
    (rest : List String)
    (h1 : env.apiKey = some k) (h2 : env.argv2 = some f)
    (h3 : env.fileContent = .ok content) (h4 : (jsTrim content).length ≠ 0)
    (h5 : env.api (generatePrompt promptTemplate content) = .ok (text :: rest)) :
    (run env).stdout =
      ["Current working directory: " ++ env.cwd, "OpenAI Response: " ++ text] ∧
    (run env).exitCode = 0 := by
  constructor <;> simp [run, h1, h2, h3, h4, h5]

/-- Witness for C2 at a concrete environment and response text. -/
theorem claim_C2_response_printed_witness :
    (run envOk).stdout =
      ["Current working directory: " ++ envOk.cwd,
       "OpenAI Response: " ++ "FinalStockLevels"] ∧
    (run envOk).exitCode = 0 :=
  claim_C2_response_printed envOk "key" "stock.txt" "set-stock AB12 100"
    "FinalStockLevels" [] rfl rfl rfl (by decide) rfl

/-- C3 counterexample: a run that fails (exit status 1, at the API call)
has already printed the working-directory line on stdout, so a failing run
does not print only error messages. -/
theorem claim_C3_counterexample :
    (run envApiFail).exitCode = 1 ∧
    (run envApiFail).errout = ["Error: socket hang up"] ∧
    (run envApiFail).stdout = ["Current working directory: /work"] ∧
    (run envApiFail).stdout ≠ [] := by
  have ht : ¬((jsTrim "set-stock AB12 100").length = 0) := by decide
  refine ⟨?_, ?_, ?_, ?_⟩ <;> simp [run, envApiFail, ht]

/-- C3 (amended): every run either succeeds — exit status 0, nothing on
stderr, stdout exactly the working-directory line followed by the model
response — or fails: exit status exactly 1, a single error message on
stderr, no stock-level/model output, and stdout empty except possibly for
the working-directory progress line. -/
theorem claim_C3_exit_behavior (env : Env) :
    ((run env).exitCode = 0 ∧ (run env).errout = [] ∧
      ∃ t, (run env).stdout =
        ["Current working directory: " ++ env.cwd, "OpenAI Response: " ++ t]) ∨
    ((run env).exitCode = 1 ∧ (∃ m, (run env).errout = [m]) ∧
      ((run env).stdout = [] ∨
        (run env).stdout = ["Current working directory: " ++ env.cwd])) := by
  obtain ⟨key, argv, cwd, fc, api⟩ := env
  cases key with
  | none => right; simp [run]
  | some k =>
    cases argv with
    | none => right; simp [run]
    | some f =>
      cases fc with
      | error msg => right; simp [run]
      | ok content =>
        by_cases ht : (jsTrim content).length = 0
        · right; simp [run, ht]
        · cases hapi : api (generatePrompt promptTemplate content) with
          | ok choices =>
            cases choices with
            | nil => right; simp [run, ht, hapi]
            | cons t ts => left; simp [run, ht, hapi]
          | httpError s d => right; simp [run, ht, hapi]
          | netError m => right; simp [run, ht, hapi]

/-- Witness for C3 (amended) at a successful and at a failing environment. -/
theorem claim_C3_exit_behavior_witness :
    (((run envOk).exitCode = 0 ∧ (run envOk).errout = [] ∧
      ∃ t, (run envOk).stdout =
        ["Current working directory: " ++ envOk.cwd, "OpenAI Response: " ++ t]) ∨
    ((run envOk).exitCode = 1 ∧ (∃ m, (run envOk).errout = [m]) ∧
      ((run envOk).stdout = [] ∨
        (run envOk).stdout = ["Current working directory: " ++ envOk.cwd]))) ∧
    (((run envApiFail).exitCode = 0 ∧ (run envApiFail).errout = [] ∧
      ∃ t, (run envApiFail).stdout =
        ["Current working directory: " ++ envApiFail.cwd, "OpenAI Response: " ++ t]) ∨
    ((run envApiFail).exitCode = 1 ∧ (∃ m, (run envApiFail).errout = [m]) ∧
      ((run envApiFail).stdout = [] ∨
        (run envApiFail).stdout = ["Current working directory: " ++ envApiFail.cwd]))) :=
  ⟨claim_C3_exit_behavior envOk, claim_C3_exit_behavior envApiFail⟩

/-- The ECMAScript trim of an all-whitespace string is empty. -/
theorem jsTrim_length_zero_of_all_ws (content : String)
    (h : ∀ c ∈ content.data, isJsWhitespace c = true) :
    (jsTrim content).length = 0 := by
  have h1 : ∀ l : List Char, (∀ c ∈ l, isJsWhitespace c = true) →
      l.dropWhile isJsWhitespace = [] := by
    intro l
    induction l with
    | nil => intro _; rfl
    | cons c rest ih =>
      intro hall
      rw [List.dropWhile_cons, if_pos (by rw [hall c (List.mem_cons_self c rest)])]
      exact ih (fun x hx => hall x (List.mem_cons_of_mem c hx))
  simp [jsTrim, h1 content.data h, String.length]

/-- C8: for every whitespace-only (or empty) input file, the script prints
exactly the message "Please enter valid stock instructions in the file."
on stderr, exits with status 1, issues no API request and prints no model
output. -/
theorem claim_C8_whitespace_file (env : Env) (k f content : String)
    (h1 : env.apiKey = some k) (h2 : env.argv2 = some f)
    (h3 : env.fileContent = .ok content)
    (h4 : ∀ c ∈ content.data, isJsWhitespace c = true) :
    run env = ⟨[], ["Please enter valid stock instructions in the file."], 1, true, none⟩ := by
  have ht := jsTrim_length_zero_of_all_ws content h4
  simp [run, h1, h2, h3, ht]

/-- Witness for C8 at a file containing only spaces, tabs and newlines. -/
theorem claim_C8_whitespace_file_witness :
    run envBlankFile =
      ⟨[], ["Please enter valid stock instructions in the file."], 1, true, none⟩ :=
  claim_C8_whitespace_file envBlankFile "key" "stock.txt" " \n\t  \n"
    rfl rfl rfl (by decide)

/-- C9 counterexample: invoked without a file-path argument but also
without `OPENAI_API_KEY`, the script prints the API-key message — module
initialization runs `initializeOpenAI` before `main` checks `argv[2]` —
not the file-path message the claim promises for every argument-less
invocation. -/
theorem claim_C9_counterexample :
    envNoKeyNoArg.argv2 = none ∧
    (run envNoKeyNoArg).errout = ["OpenAI API key not configured"] ∧
    (run envNoKeyNoArg).errout ≠
      ["Please specify the path to the file containing stock instructions."] := by
  refine ⟨rfl, rfl, ?_⟩
  decide

/-- C9 (amended): invoked with an API key configured but without a
file-path argument, the script prints "Please specify the path to the file
containing stock instructions." on stderr and exits with status 1 without
attempting to read any file. -/
theorem claim_C9_missing_argument (env : Env) (k : String)
    (h1 : env.apiKey = some k) (h2 : env.argv2 = none) :
    run env =
      ⟨[], ["Please specify the path to the file containing stock instructions."],
       1, false, none⟩ := by
  simp [run, h1, h2]

/-- Witness for C9 (amended). -/
theorem claim_C9_missing_argument_witness :
    run envNoArg =
      ⟨[], ["Please specify the path to the file containing stock instructions."],
       1, false, none⟩ :=
  claim_C9_missing_argument envNoArg "key" rfl rfl

/-- C10: every run either exits 0, or — on every failure path (missing API
key, missing argument, empty file, file-read failure, API-call failure,
missing first choice) — exits with status exactly 1 with exactly one
message written to standard error, as all failure paths route through
`handleError`. -/
theorem claim_C10_failure_handler (env : Env) :
    (run env).exitCode = 0 ∨
    ((run env).exitCode = 1 ∧ ∃ m, (run env).errout = [m]) := by
  obtain ⟨key, argv, cwd, fc, api⟩ := env
  cases key with
  | none => right; simp [run]
  | some k =>
    cases argv with
    | none => right; simp [run]
    | some f =>
      cases fc with
      | error msg => right; simp [run]
      | ok content =>
        by_cases ht : (jsTrim content).length = 0
        · right; simp [run, ht]
        · cases hapi : api (generatePrompt promptTemplate content) with
          | ok choices =>
            cases choices with
            | nil => right; simp [run, ht, hapi]
            | cons t ts => left; simp [run, ht, hapi]
          | httpError s d => right; simp [run, ht, hapi]
          | netError m => right; simp [run, ht, hapi]

/-- Witness for C10 at a failing environment: exit status exactly 1 and a
single stderr message. -/
theorem claim_C10_failure_handler_witness :
    (run envNoKeyNoArg).exitCode = 0 ∨
    ((run envNoKeyNoArg).exitCode = 1 ∧ ∃ m, (run envNoKeyNoArg).errout = [m]) :=
  claim_C10_failure_handler envNoKeyNoArg

end Fy
